import Mathlib

/-!
# Shallow embedding of `gcc-python-tree.c`

This file embeds the wrapper-object factory of the gcc-python plugin
(`src/gcc-python-tree.c`) in Lean 4 and proves the specified properties.

The embedding models the CPython object layer with a small explicit heap:
objects carry an identity, a runtime type descriptor, a reference count and a
payload.  Allocation (`PyObject_New`, `PyString_FromString`,
`PyString_FromFormat`) consumes an allocation counter and may fail according to
an oracle `failOn` carried by the heap, which lets us state the
allocation-failure claims.  `printf` output is modelled as an explicit list of
strings returned by the factory.

External collaborators that are declared but not defined in the source file
(`gcc_python_autogenerated_tree_type_for_tree`, the kind→type table, and
`gcc_Declaration_get_name`) are modelled from the spec as parameters; their doc
comments say so.
-/

namespace GccPython

/-- KindTag: discriminant identifying a native node's semantic category
(host-defined, external). -/
abbrev KindTag := Nat

/-- WrapperType: a dynamic-object type descriptor (models a `PyTypeObject*`). -/
abbrev WrapperType := Nat

/-- NativeNodeHandle (C type `tree`): an identifier for a node in host-owned
memory, together with the host-provided kind tag that classifies it. -/
structure tree where
  addr : Nat
  kind : KindTag
deriving DecidableEq, Repr

/-- NativeLocationValue (C type `location_t`): a fixed-size value encoding a
file identifier and a line number (`LOCATION_FILE` / `LOCATION_LINE`). -/
structure location_t where
  file : String
  line : Int
deriving DecidableEq, Repr

/-- The C `struct PyGccLocation`: a wrapper holding one `location_t` by value. -/
structure PyGccLocation where
  loc : location_t
deriving DecidableEq, Repr

/-- The C `struct PyGccTree`: a wrapper holding one native `tree` handle. -/
structure PyGccTree where
  t : tree
deriving DecidableEq, Repr

/-- Payload stored inside a dynamic object on our modelled heap. -/
inductive Payload where
  | uninit
  | treeNode (t : tree)
  | locVal (l : location_t)
  | str (s : String)
deriving DecidableEq, Repr

/-- A dynamic (Python) object: identity, runtime type, refcount, payload. -/
structure PyObject where
  id : Nat
  ob_type : WrapperType
  refcnt : Nat
  payload : Payload
deriving DecidableEq, Repr

/-- The modelled object heap.  `failOn` is the allocation-failure oracle: the
`n`-th allocation of the run fails iff `failOn.contains n`; `allocCount` is
the number of allocations attempted so far; `objs` are the live (reachable)
objects. -/
structure Heap where
  nextId : Nat
  allocCount : Nat
  failOn : List Nat
  objs : List PyObject
deriving DecidableEq, Repr

/-- The empty heap with an always-succeeding allocator. -/
def emptyHeap : Heap := ⟨0, 0, [], []⟩

/-- A heap whose allocator fails from the first allocation on. -/
def failingHeap : Heap := ⟨0, 0, [0, 1, 2, 3], []⟩

/-- The type descriptor `gcc_Location` (the `PyTypeObject` for locations). -/
def gcc_Location : WrapperType := 0

/-- The type descriptor of CPython string objects. -/
def PyStringType : WrapperType := 1

/-- Generic allocation primitive: fails according to the heap's oracle,
otherwise returns a fresh object with refcount 1 holding `p`. -/
def allocObject (tp : WrapperType) (p : Payload) (h : Heap) : Option PyObject × Heap :=
  if h.failOn.contains h.allocCount then
    (none, { h with allocCount := h.allocCount + 1 })
  else
    let obj : PyObject := ⟨h.nextId, tp, 1, p⟩
    (some obj,
     { h with nextId := h.nextId + 1, allocCount := h.allocCount + 1,
              objs := obj :: h.objs })

/-- `PyObject_New(tp)`: allocate a new, not yet initialised object of type
`tp`. -/
def PyObject_New (tp : WrapperType) (h : Heap) : Option PyObject × Heap :=
  allocObject tp Payload.uninit h

/-- `PyString_FromString(s)`: allocate a string object holding `s`. -/
def PyString_FromString (s : String) (h : Heap) : Option PyObject × Heap :=
  allocObject PyStringType (Payload.str s) h

/-- `PyString_FromFormat(...)`: the formatting itself is done at each call
site (mirroring the C format string); the allocation of the resulting string
object is modelled here. -/
def PyString_FromFormat (s : String) (h : Heap) : Option PyObject × Heap :=
  allocObject PyStringType (Payload.str s) h

/-- `PyString_AsString`: read the character data of a string object. -/
def PyString_AsString (o : PyObject) : String :=
  match o.payload with
  | Payload.str s => s
  | _ => ""

/-- One step of `Py_DECREF` applied to object `o` when the target id is
`oid`: drop the object when its count reaches zero. -/
def decRefOne (oid : Nat) (o : PyObject) : Option PyObject :=
  if o.id = oid then
    (if o.refcnt ≤ 1 then none else some { o with refcnt := o.refcnt - 1 })
  else some o

/-- `Py_DECREF(op)`: decrement the reference count of the object with id
`oid`, reclaiming it when the count reaches zero. -/
def Py_DECREF (oid : Nat) (h : Heap) : Heap :=
  { h with objs := h.objs.filterMap (decRefOne oid) }

/-- Field store (`obj->field = v`): overwrite the payload of the object with
id `oid`. -/
def Heap.setPayload (h : Heap) (oid : Nat) (p : Payload) : Heap :=
  { h with objs := h.objs.map fun o => if o.id = oid then { o with payload := p } else o }

/-- Look an object up by id among the reachable objects. -/
def Heap.lookup (h : Heap) (oid : Nat) : Option PyObject :=
  h.objs.find? fun o => o.id == oid

/-- Heap well-formedness: every live object has an id below `nextId` (so fresh
ids never collide with live ones). -/
def Heap.wf (h : Heap) : Bool :=
  h.objs.all fun o => decide (o.id < h.nextId)

/-- `gcc_Location_repr`: formats
`"gcc.Location(file='%s', line=%i)"` over the wrapped value and allocates the
resulting string object. -/
def gcc_Location_repr (self : PyGccLocation) (h : Heap) : Option PyObject × Heap :=
  PyString_FromFormat
    ("gcc.Location(file='" ++ self.loc.file ++ "', line=" ++ toString self.loc.line ++ ")") h

/-- `gcc_Location_str`: formats `"%s:%i"` over the wrapped value and allocates
the resulting string object. -/
def gcc_Location_str (self : PyGccLocation) (h : Heap) : Option PyObject × Heap :=
  PyString_FromFormat (self.loc.file ++ ":" ++ toString self.loc.line) h

/-- `gcc_python_make_wrapper_location`: allocate a `PyGccLocation` object and
copy `loc` into it; return `none` (NULL) when the allocator fails. -/
def gcc_python_make_wrapper_location (loc : location_t) (h : Heap) : Option Nat × Heap :=
  match PyObject_New gcc_Location h with
  | (none, h1) => (none, h1)
  | (some obj, h1) => (some obj.id, h1.setPayload obj.id (Payload.locVal loc))

/-- Modelled from the spec: `gcc_python_autogenerated_tree_type_for_tree` is
produced by an external generation step and is not part of the source file;
per the spec it extracts the node's KindTag and resolves it through the
kind→type table (`ResolveWrapperType`), which may lack an entry.  The table is
passed as the parameter `table`. -/
def gcc_python_autogenerated_tree_type_for_tree
    (table : KindTag → Option WrapperType) (t : tree) : Option WrapperType :=
  table t.kind

/-- Outcome of `gcc_python_make_wrapper_tree`: the `assert(tp)` failure is a
fatal abort, distinct from a recoverable NULL return on allocation failure. -/
inductive TreeWrapResult where
  | fatalAssert
  | allocFailed
  | ok (oid : Nat)
deriving DecidableEq, Repr

/-- `gcc_python_make_wrapper_tree`: resolve the node's wrapper type, assert it
exists, print the debug line `"tp:%p\n"`, allocate an object of that type and
bind the handle into it.  The third component is the stdout output. -/
def gcc_python_make_wrapper_tree (table : KindTag → Option WrapperType)
    (t : tree) (h : Heap) : TreeWrapResult × Heap × List String :=
  match gcc_python_autogenerated_tree_type_for_tree table t with
  | none => (TreeWrapResult.fatalAssert, h, [])
  | some tp =>
    let out := ["tp:" ++ toString tp ++ "\n"]
    match PyObject_New tp h with
    | (none, h1) => (TreeWrapResult.allocFailed, h1, out)
    | (some obj, h1) =>
      (TreeWrapResult.ok obj.id, h1.setPayload obj.id (Payload.treeNode t), out)

/-- Modelled from the spec: `gcc_Declaration_get_name` is declared in
`gcc-python-wrappers.h` but defined elsewhere; per the spec it is an accessor
`GetDeclarationName(wrapper) -> StringRef | Failure` that may fail, and on
success returns a new reference to a string object holding the declaration's
name.  The accessor's outcome is supplied by the environment `names`. -/
def gcc_Declaration_get_name (names : tree → Option String) (self : PyGccTree)
    (h : Heap) : Option PyObject × Heap :=
  match names self.t with
  | none => (none, h)
  | some s => PyString_FromString s h

/-- `gcc_Declaration_repr`: fetch the declaration's name; on failure return
NULL (the error label only releases the two NULL locals); on success format
`"gcc.Declaration('%s')"`, release the name object, and return the result
(which is NULL exactly when the format allocation failed). -/
def gcc_Declaration_repr (names : tree → Option String) (self : PyGccTree)
    (h : Heap) : Option PyObject × Heap :=
  match gcc_Declaration_get_name names self h with
  | (none, h1) => (none, h1)
  | (some name, h1) =>
    let fr := PyString_FromFormat ("gcc.Declaration('" ++ PyString_AsString name ++ "')") h1
    (fr.1, Py_DECREF name.id fr.2)

/-- A concrete kind→type table for the witnesses: kind 0 is registered with
wrapper type 7, every other kind is unregistered. -/
def exTable : KindTag → Option WrapperType :=
  fun k => if k = 0 then some 7 else none

/-- A heap whose second allocation (index 1) fails while the first succeeds. -/
def oneFailHeap : Heap := ⟨0, 0, [1], []⟩

/-- Objects whose ids all differ from `oid` pass through `Py_DECREF`
untouched. -/
theorem filterMap_decRefOne_of_ne (oid : Nat) (l : List PyObject)
    (hl : ∀ o ∈ l, o.id ≠ oid) : l.filterMap (decRefOne oid) = l := by
  induction l with
  | nil => rfl
  | cons a as ih =>
    rw [List.filterMap_cons]
    have ha : decRefOne oid a = some a := by
      simp [decRefOne, hl a (List.mem_cons_self a as)]
    rw [ha, ih fun o ho => hl o (List.mem_cons_of_mem a ho)]

/-- In a well-formed heap every live object's id differs from `nextId`. -/
theorem wf_ids_ne_nextId (h : Heap) (hwf : h.wf = true) :
    ∀ o ∈ h.objs, o.id ≠ h.nextId := by
  intro o ho
  have := List.all_eq_true.mp hwf o ho
  exact Nat.ne_of_lt (by simpa using this)

/-- Claim C2 counterexample: on the code, `Repr` of the location with file
"foo.c" and line 42 does not yield "Location(file='foo.c', line=42)": the
format string carries a `gcc.` prefix. -/
theorem gcc_Location_repr_not_unprefixed :
    (gcc_Location_repr ⟨⟨"foo.c", 42⟩⟩ emptyHeap).1.map PyObject.payload ≠
      some (Payload.str "Location(file='foo.c', line=42)") := by decide

/-- Claim C2 (amended): for every wrapped location value with file `f` and
line `n`, when the string allocation succeeds, `Repr` yields exactly
`gcc.Location(file='<f>', line=<n>)`. -/
theorem gcc_Location_repr_format (f : String) (n : Int) (h : Heap)
    (hf : h.failOn.contains h.allocCount = false) :
    (gcc_Location_repr ⟨⟨f, n⟩⟩ h).1.map PyObject.payload =
      some (Payload.str ("gcc.Location(file='" ++ f ++ "', line=" ++ toString n ++ ")")) := by
  have hm : h.allocCount ∉ h.failOn := by simpa using hf
  simp [gcc_Location_repr, PyString_FromFormat, allocObject, hm]

/-- Witness for C2's amended theorem at file "foo.c", line 42. -/
theorem gcc_Location_repr_format_witness :
    (gcc_Location_repr ⟨⟨"foo.c", 42⟩⟩ emptyHeap).1.map PyObject.payload =
      some (Payload.str "gcc.Location(file='foo.c', line=42)") :=
  (gcc_Location_repr_format "foo.c" 42 emptyHeap (by decide)).trans (by decide)

/-- Claim C3: for every wrapped location value with file `f` and line `n`,
`Display` (the `str` hook) yields exactly `<f>:<n>`. -/
theorem gcc_Location_str_format (f : String) (n : Int) (h : Heap)
    (hf : h.failOn.contains h.allocCount = false) :
    (gcc_Location_str ⟨⟨f, n⟩⟩ h).1.map PyObject.payload =
      some (Payload.str (f ++ ":" ++ toString n)) := by
  have hm : h.allocCount ∉ h.failOn := by simpa using hf
  simp [gcc_Location_str, PyString_FromFormat, allocObject, hm]

/-- Witness for C3 at file "foo.c", line 42. -/
theorem gcc_Location_str_format_witness :
    (gcc_Location_str ⟨⟨"foo.c", 42⟩⟩ emptyHeap).1.map PyObject.payload =
      some (Payload.str "foo.c:42") :=
  (gcc_Location_str_format "foo.c" 42 emptyHeap (by decide)).trans (by decide)

/-- Claim C1: for every native handle whose KindTag resolves to wrapper type
`tp`, when the allocator succeeds `gcc_python_make_wrapper_tree` returns a
fresh object whose runtime type is `tp` and which stores the handle by
value. -/
theorem gcc_python_make_wrapper_tree_dispatch (table : KindTag → Option WrapperType)
    (t : tree) (tp : WrapperType) (h : Heap)
    (htp : table t.kind = some tp)
    (hf : h.failOn.contains h.allocCount = false) :
    (gcc_python_make_wrapper_tree table t h).1 = TreeWrapResult.ok h.nextId ∧
    (gcc_python_make_wrapper_tree table t h).2.1.lookup h.nextId =
      some ⟨h.nextId, tp, 1, Payload.treeNode t⟩ := by
  have hm : h.allocCount ∉ h.failOn := by simpa using hf
  simp [gcc_python_make_wrapper_tree, gcc_python_autogenerated_tree_type_for_tree, htp,
        PyObject_New, allocObject, hm, Heap.setPayload, Heap.lookup, List.find?]

/-- Witness for C1: kind 0 resolves to type 7 and the handle ⟨3, 0⟩ is stored. -/
theorem gcc_python_make_wrapper_tree_dispatch_witness :
    (gcc_python_make_wrapper_tree exTable ⟨3, 0⟩ emptyHeap).1 = TreeWrapResult.ok 0 ∧
    (gcc_python_make_wrapper_tree exTable ⟨3, 0⟩ emptyHeap).2.1.lookup 0 =
      some ⟨0, 7, 1, Payload.treeNode ⟨3, 0⟩⟩ :=
  gcc_python_make_wrapper_tree_dispatch exTable ⟨3, 0⟩ 7 emptyHeap (by decide) (by decide)

/-- Claim C5: for a KindTag with no registered wrapper type the factory hits
the fatal assertion (`assert(tp)`): no wrapper is allocated, the heap is
unchanged and nothing is printed. -/
theorem gcc_python_make_wrapper_tree_unregistered (table : KindTag → Option WrapperType)
    (t : tree) (h : Heap) (htp : table t.kind = none) :
    gcc_python_make_wrapper_tree table t h = (TreeWrapResult.fatalAssert, h, []) := by
  simp [gcc_python_make_wrapper_tree, gcc_python_autogenerated_tree_type_for_tree, htp]

/-- Witness for C5: kind 1 is unregistered in the example table. -/
theorem gcc_python_make_wrapper_tree_unregistered_witness :
    gcc_python_make_wrapper_tree exTable ⟨5, 1⟩ emptyHeap =
      (TreeWrapResult.fatalAssert, emptyHeap, []) :=
  gcc_python_make_wrapper_tree_unregistered exTable ⟨5, 1⟩ emptyHeap (by decide)

/-- Claim C6: when the allocator fails, both factories return a NULL result
and the set of reachable objects is exactly what it was before the call — no
partially constructed object is left behind. -/
theorem alloc_failure_no_partial_object (table : KindTag → Option WrapperType)
    (t : tree) (tp : WrapperType) (loc : location_t) (h : Heap)
    (htp : table t.kind = some tp)
    (hf : h.failOn.contains h.allocCount = true) :
    (gcc_python_make_wrapper_tree table t h).1 = TreeWrapResult.allocFailed ∧
    (gcc_python_make_wrapper_tree table t h).2.1.objs = h.objs ∧
    (gcc_python_make_wrapper_location loc h).1 = none ∧
    (gcc_python_make_wrapper_location loc h).2.objs = h.objs := by
  have hm : h.allocCount ∈ h.failOn := by simpa using hf
  simp [gcc_python_make_wrapper_tree, gcc_python_autogenerated_tree_type_for_tree, htp,
        gcc_python_make_wrapper_location, PyObject_New, allocObject, hm]

/-- Witness for C6 on a heap whose allocator always fails. -/
theorem alloc_failure_no_partial_object_witness :
    (gcc_python_make_wrapper_tree exTable ⟨0, 0⟩ failingHeap).1 = TreeWrapResult.allocFailed ∧
    (gcc_python_make_wrapper_tree exTable ⟨0, 0⟩ failingHeap).2.1.objs = failingHeap.objs ∧
    (gcc_python_make_wrapper_location ⟨"foo.c", 42⟩ failingHeap).1 = none ∧
    (gcc_python_make_wrapper_location ⟨"foo.c", 42⟩ failingHeap).2.objs = failingHeap.objs :=
  alloc_failure_no_partial_object exTable ⟨0, 0⟩ 7 ⟨"foo.c", 42⟩ failingHeap
    (by decide) (by decide)

/-- Claim C9: wrapping the same handle twice yields two objects with distinct
identities, both of the KindTag-derived type and both storing the same
underlying handle value. -/
theorem gcc_python_make_wrapper_tree_no_cache (table : KindTag → Option WrapperType)
    (t : tree) (tp : WrapperType) (h : Heap)
    (htp : table t.kind = some tp)
    (hf0 : h.failOn.contains h.allocCount = false)
    (hf1 : h.failOn.contains (h.allocCount + 1) = false) :
    (gcc_python_make_wrapper_tree table t h).1 = TreeWrapResult.ok h.nextId ∧
    (gcc_python_make_wrapper_tree table t
        (gcc_python_make_wrapper_tree table t h).2.1).1 = TreeWrapResult.ok (h.nextId + 1) ∧
    h.nextId ≠ h.nextId + 1 ∧
    ((gcc_python_make_wrapper_tree table t
        (gcc_python_make_wrapper_tree table t h).2.1).2.1.lookup h.nextId).map
      (fun o => (o.ob_type, o.payload)) = some (tp, Payload.treeNode t) ∧
    ((gcc_python_make_wrapper_tree table t
        (gcc_python_make_wrapper_tree table t h).2.1).2.1.lookup (h.nextId + 1)).map
      (fun o => (o.ob_type, o.payload)) = some (tp, Payload.treeNode t) := by
  have hm0 : h.allocCount ∉ h.failOn := by simpa using hf0
  have hm1 : h.allocCount + 1 ∉ h.failOn := by simpa using hf1
  simp [gcc_python_make_wrapper_tree, gcc_python_autogenerated_tree_type_for_tree, htp,
        PyObject_New, allocObject, hm0, hm1, Heap.setPayload, Heap.lookup, List.find?,
        Nat.succ_ne_self]

/-- Witness for C9: wrapping the handle ⟨3, 0⟩ twice on the empty heap. -/
theorem gcc_python_make_wrapper_tree_no_cache_witness :
    (gcc_python_make_wrapper_tree exTable ⟨3, 0⟩ emptyHeap).1 = TreeWrapResult.ok 0 ∧
    (gcc_python_make_wrapper_tree exTable ⟨3, 0⟩
        (gcc_python_make_wrapper_tree exTable ⟨3, 0⟩ emptyHeap).2.1).1 = TreeWrapResult.ok 1 ∧
    (0 : Nat) ≠ 1 ∧
    ((gcc_python_make_wrapper_tree exTable ⟨3, 0⟩
        (gcc_python_make_wrapper_tree exTable ⟨3, 0⟩ emptyHeap).2.1).2.1.lookup 0).map
      (fun o => (o.ob_type, o.payload)) = some (7, Payload.treeNode ⟨3, 0⟩) ∧
    ((gcc_python_make_wrapper_tree exTable ⟨3, 0⟩
        (gcc_python_make_wrapper_tree exTable ⟨3, 0⟩ emptyHeap).2.1).2.1.lookup 1).map
      (fun o => (o.ob_type, o.payload)) = some (7, Payload.treeNode ⟨3, 0⟩) :=
  gcc_python_make_wrapper_tree_no_cache exTable ⟨3, 0⟩ 7 emptyHeap
    (by decide) (by decide) (by decide)

/-- Claim C8 (the code contradicts it): `gcc_python_make_wrapper_tree` writes
a debug line to standard output on every call with a registered kind. -/
theorem gcc_python_make_wrapper_tree_prints :
    (gcc_python_make_wrapper_tree exTable ⟨0, 0⟩ emptyHeap).2.2 ≠ [] := by decide

/-- Claim C7: when the name accessor fails, `gcc_Declaration_repr` propagates
the failure unchanged — it returns NULL and the heap is untouched (no result
string is produced). -/
theorem gcc_Declaration_repr_name_failure (names : tree → Option String)
    (self : PyGccTree) (h : Heap) (hname : names self.t = none) :
    gcc_Declaration_repr names self h = (none, h) := by
  simp [gcc_Declaration_repr, gcc_Declaration_get_name, hname]

/-- Witness for C7: an accessor environment with no names. -/
theorem gcc_Declaration_repr_name_failure_witness :
    gcc_Declaration_repr (fun _ => none) ⟨⟨0, 0⟩⟩ emptyHeap = (none, emptyHeap) :=
  gcc_Declaration_repr_name_failure (fun _ => none) ⟨⟨0, 0⟩⟩ emptyHeap rfl

/-- Claim C4 counterexample: on the code, `Repr` of a declaration named "x"
does not yield "Declaration('x')": the format string carries a `gcc.`
prefix. -/
theorem gcc_Declaration_repr_not_unprefixed :
    (gcc_Declaration_repr (fun _ => some "x") ⟨⟨0, 0⟩⟩ emptyHeap).1.map PyObject.payload ≠
      some (Payload.str "Declaration('x')") := by decide

/-- Claim C4 (amended): when the name accessor yields `s` and both
allocations succeed, `gcc_Declaration_repr` returns a string object holding
exactly `gcc.Declaration('<s>')`, and the intermediate name object has been
released: the final reachable objects are the result in front of the original
heap contents. -/
theorem gcc_Declaration_repr_ok (names : tree → Option String) (self : PyGccTree)
    (s : String) (h : Heap)
    (hname : names self.t = some s)
    (hf0 : h.failOn.contains h.allocCount = false)
    (hf1 : h.failOn.contains (h.allocCount + 1) = false)
    (hwf : h.wf = true) :
    ∃ r : PyObject,
      (gcc_Declaration_repr names self h).1 = some r ∧
      r.payload = Payload.str ("gcc.Declaration('" ++ s ++ "')") ∧
      (gcc_Declaration_repr names self h).2.objs = r :: h.objs := by
  have hfm : List.filterMap (decRefOne h.nextId) h.objs = h.objs :=
    filterMap_decRefOne_of_ne h.nextId h.objs (wf_ids_ne_nextId h hwf)
  have hr : decRefOne h.nextId ⟨h.nextId + 1, PyStringType, 1,
      Payload.str ("gcc.Declaration('" ++ s ++ "')")⟩ =
      some ⟨h.nextId + 1, PyStringType, 1,
        Payload.str ("gcc.Declaration('" ++ s ++ "')")⟩ := by
    simp [decRefOne]
  have hn : decRefOne h.nextId ⟨h.nextId, PyStringType, 1, Payload.str s⟩ = none := by
    simp [decRefOne]
  have hm0 : h.allocCount ∉ h.failOn := by simpa using hf0
  have hm1 : h.allocCount + 1 ∉ h.failOn := by simpa using hf1
  refine ⟨⟨h.nextId + 1, PyStringType, 1, Payload.str ("gcc.Declaration('" ++ s ++ "')")⟩,
    ?_, rfl, ?_⟩ <;>
  simp [gcc_Declaration_repr, gcc_Declaration_get_name, PyString_FromString,
        PyString_FromFormat, allocObject, Py_DECREF, hname, hm0, hm1,
        PyString_AsString, List.filterMap_cons, hr, hn, hfm]

/-- Witness for C4's amended theorem with name "x" on the empty heap. -/
theorem gcc_Declaration_repr_ok_witness :
    ∃ r : PyObject,
      (gcc_Declaration_repr (fun _ => some "x") ⟨⟨0, 0⟩⟩ emptyHeap).1 = some r ∧
      r.payload = Payload.str ("gcc.Declaration('" ++ "x" ++ "')") ∧
      (gcc_Declaration_repr (fun _ => some "x") ⟨⟨0, 0⟩⟩ emptyHeap).2.objs =
        r :: emptyHeap.objs :=
  gcc_Declaration_repr_ok (fun _ => some "x") ⟨⟨0, 0⟩⟩ "x" emptyHeap rfl
    (by decide) (by decide) (by decide)

/-- Claim C10: when the name accessor succeeds but the allocation of the
formatted string fails, `gcc_Declaration_repr` returns NULL and the name
object's reference has been released: the reachable objects are exactly those
before the call — nothing leaks. -/
theorem gcc_Declaration_repr_format_alloc_failure (names : tree → Option String)
    (self : PyGccTree) (s : String) (h : Heap)
    (hname : names self.t = some s)
    (hf0 : h.failOn.contains h.allocCount = false)
    (hf1 : h.failOn.contains (h.allocCount + 1) = true)
    (hwf : h.wf = true) :
    (gcc_Declaration_repr names self h).1 = none ∧
    (gcc_Declaration_repr names self h).2.objs = h.objs := by
  have hfm : List.filterMap (decRefOne h.nextId) h.objs = h.objs :=
    filterMap_decRefOne_of_ne h.nextId h.objs (wf_ids_ne_nextId h hwf)
  have hn : decRefOne h.nextId ⟨h.nextId, PyStringType, 1, Payload.str s⟩ = none := by
    simp [decRefOne]
  have hm0 : h.allocCount ∉ h.failOn := by simpa using hf0
  have hm1 : h.allocCount + 1 ∈ h.failOn := by simpa using hf1
  refine ⟨?_, ?_⟩ <;>
  simp [gcc_Declaration_repr, gcc_Declaration_get_name, PyString_FromString,
        PyString_FromFormat, allocObject, Py_DECREF, hname, hm0, hm1,
        PyString_AsString, List.filterMap_cons, hn, hfm]

/-- Witness for C10: the first allocation succeeds and the second fails. -/
theorem gcc_Declaration_repr_format_alloc_failure_witness :
    (gcc_Declaration_repr (fun _ => some "x") ⟨⟨0, 0⟩⟩ oneFailHeap).1 = none ∧
    (gcc_Declaration_repr (fun _ => some "x") ⟨⟨0, 0⟩⟩ oneFailHeap).2.objs =
      oneFailHeap.objs :=
  gcc_Declaration_repr_format_alloc_failure (fun _ => some "x") ⟨⟨0, 0⟩⟩ "x" oneFailHeap
    rfl (by decide) (by decide) (by decide)

end GccPython
